import Mathlib

/-!
# Verification of the foobot2 command dispatch and message-routing engine

A shallow embedding, in Lean 4, of the command dispatch core of the
`foobot2` chat bot: the action interpreter (`execute_command_action` /
`make_inquiry` in `src/command_handler.rs`), the builtin command dispatch
(`run_command`, `cmd`, `handle_command_message`), the entity store with its
caches (`src/database/mod.rs`), the message filter
(`src/command_handler/platform_handler.rs`), and the cooldown gate.

Modelling conventions:
* machine integers become `Nat`; database tables become association lists;
* fallible operations return `Except`; a Rust `panic!`/`unwrap` failure is
  modelled by an outer `Option` being `none`;
* the regex engine (the external `regex` crate) is a parameter
  (`RegexEngine`), since it is a third-party dependency, not repository
  code; the filter pipeline's control flow is translated verbatim;
* external I/O (MySQL transport, redis publishes) is out of the model:
  table reads and writes are pure state passing.
-/

/-- Tokenisation helper mirroring Rust `str::split_whitespace`:
splits on whitespace and discards empty tokens.  `cur` is the reversed
accumulator of the current token. -/
def splitWhitespaceAux : List Char → List Char → List String
  | [], [] => []
  | [], cur => [String.mk cur.reverse]
  | c :: rest, cur =>
    if c.isWhitespace then
      match cur with
      | [] => splitWhitespaceAux rest []
      | _ => String.mk cur.reverse :: splitWhitespaceAux rest []
    else splitWhitespaceAux rest (c :: cur)

/-- Rust `str::split_whitespace` over a whole string. -/
def splitWhitespace (s : String) : List String :=
  splitWhitespaceAux s.data []

/-- Rust `str::split(":")` (used by `make_inquiry`): splitting always yields
at least one (possibly empty) segment. -/
def splitColonAux : List Char → List Char → List String
  | [], cur => [String.mk cur.reverse]
  | c :: rest, cur =>
    if c = ':' then String.mk cur.reverse :: splitColonAux rest []
    else splitColonAux rest (c :: cur)

/-- Split a string on `':'`, Rust `split` semantics. -/
def splitColon (s : String) : List String :=
  splitColonAux s.data []

/-- Rust `Vec::join(" ")`: joins with single spaces, empty list gives `""`. -/
def joinSpace : List String → String
  | [] => ""
  | [x] => x
  | x :: y :: rest => x ++ " " ++ joinSpace (y :: rest)

/-- Rust `Debug` escaping for the characters that matter in `str`'s
`Debug` output: backslash and double quote (plus common control chars). -/
def rustEscapeChar (c : Char) : String :=
  if c = '"' then "\\\""
  else if c = '\\' then "\\\\"
  else if c = '\n' then "\\n"
  else if c = '\t' then "\\t"
  else if c = '\r' then "\\r"
  else String.mk [c]

/-- Rust `Debug` rendering of a `&str`: quoted and escaped. -/
def rustDebugStr (s : String) : String :=
  "\"" ++ String.join (s.data.map rustEscapeChar) ++ "\""

/-- Rust `Debug` rendering of a `Vec<&str>`, e.g. `["a", "b"]`. -/
def rustDebugVec (xs : List String) : String :=
  "[" ++ String.intercalate ", " (xs.map rustDebugStr) ++ "]"

/-! ## Platform types (`src/platform`)

The `platform` module itself is not part of the snapshot; the shapes below
are reconstructed from their uses in `src/platform/twitch.rs`,
`src/command_handler.rs` and `src/database/mod.rs`, and from the spec's
data model (§3). -/

/-- Caller permission level carried in the execution context
(`Permissions` in `src/platform`, used in `twitch.rs` and the `cmd`
builtin). -/
inductive Permissions where
  | ChannelMod
  | Default
  deriving DecidableEq, Repr

/-- Modelled from the spec: `UserIdentifier`, the tagged union over
platform identities.  The enum lives in the absent `src/platform/mod.rs`;
its variants are visible in `Database::get_user` /
`Database::get_or_create_user` (`src/database/mod.rs:413-427`). -/
inductive UserIdentifier where
  | TwitchID (id : String)
  | DiscordID (id : String)
  | TelegramId (id : Nat)
  | IrcName (name : String)
  | IpAddr (addr : String)
  deriving DecidableEq, Repr

/-- Modelled from the spec: `ChannelIdentifier`, the (platform,
channel-string) tagged union.  The enum lives in the absent
`src/platform/mod.rs`; `TwitchChannelName` is visible in
`src/platform/twitch.rs:83`, and the `Anonymous`-style variant is implied
by `get_platform_name` / `get_channel` returning `Option`
(`src/database/mod.rs`). -/
inductive ChannelIdentifier where
  | TwitchChannelName (name : String)
  | IrcChannel (name : String)
  | Anonymous
  deriving DecidableEq, Repr

/-- `ChannelIdentifier::get_platform_name`. -/
def ChannelIdentifier.getPlatformName : ChannelIdentifier → Option String
  | .TwitchChannelName _ => some "twitch"
  | .IrcChannel _ => some "irc"
  | .Anonymous => none

/-- `ChannelIdentifier::get_channel`. -/
def ChannelIdentifier.getChannel : ChannelIdentifier → Option String
  | .TwitchChannelName name => some name
  | .IrcChannel name => some name
  | .Anonymous => none

/-- `ExecutionContext` (constructed per inbound message in
`src/platform/twitch.rs:82-93`): destination channel plus caller
permission level. -/
structure ExecutionContext where
  channel : ChannelIdentifier
  permissions : Permissions
  deriving DecidableEq, Repr

/-! ## Errors (`src/command_handler.rs`, `src/database/mod.rs`) -/

/-- `InquiryError` (`src/command_handler.rs:320-323`). -/
inductive InquiryError where
  | MissingArgument (arg : String)
  deriving DecidableEq, Repr

/-- The subset of `diesel::result::Error` the engine inspects:
`DatabaseError(UniqueViolation, _)` in the `cmd` builtin; everything else
is opaque. -/
inductive DieselError where
  | UniqueViolation
  | other (msg : String)
  deriving DecidableEq, Repr

/-- `DatabaseError` (`src/database/mod.rs:897-902`). -/
inductive DatabaseError where
  | DieselError (e : DieselError)
  | RedisError (msg : String)
  | InvalidValue
  deriving DecidableEq, Repr

/-- `CommandError` (`src/command_handler.rs:275-282`).  The database
variant carries the store-level error. -/
inductive CommandError where
  | MissingArgument (arg : String)
  | InvalidArgument (arg : String)
  | NoPermissions
  | DatabaseError (e : DatabaseError)
  | InquiryError (e : InquiryError)
  deriving DecidableEq, Repr

/-- `Display for InquiryError` (`src/command_handler.rs:325-331`). -/
def InquiryError.display : InquiryError → String
  | .MissingArgument arg => "missing argument " ++ arg

/-- `Display` rendering of the modelled diesel error. -/
def DieselError.display : DieselError → String
  | .UniqueViolation => "Duplicate entry"
  | .other msg => msg

/-- `Display for DatabaseError` (`src/database/mod.rs:922-934`). -/
def DatabaseError.display : DatabaseError → String
  | .DieselError e => "Database error: " ++ e.display
  | .RedisError msg => "Redis error: " ++ msg
  | .InvalidValue => "Invalid value"

/-- `Display for CommandError` (`src/command_handler.rs:284-300`). -/
def CommandError.display : CommandError → String
  | .MissingArgument arg => "missing argument: " ++ arg
  | .InvalidArgument arg => "invalid argument: " ++ arg
  | .NoPermissions => "you don't have the permissions to use this command"
  | .DatabaseError e => "database error: " ++ e.display
  | .InquiryError e => "inquiry error: " ++ e.display

/-! ## Action interpreter (`src/command_handler.rs:122-181`) -/

/-- `CommandHandler::make_inquiry` (`src/command_handler.rs:164-181`).
The inquiry string is split on `':'`; the first segment is the inquiry
name, the rest are arguments.  `split.next()` on a Rust `Split` iterator
never yields `None` on its first call, so the `MissingArgument` branch is
kept but unreachable, exactly as in the source. -/
def makeInquiry (inquiry : String) (_ctx : ExecutionContext) :
    Except InquiryError (Option String) :=
  match splitColon inquiry with
  | [] => .error (.MissingArgument "inquiry")
  | name :: args =>
    if name = "DO_SOMETHING" then
      .ok (some ("did something with " ++ rustDebugVec args))
    else
      .ok none

/-- The character-scanning loop of `execute_command_action`
(`src/command_handler.rs:129-155`).  `mode = none` means ordinary copying;
`mode = some inq` means we are inside an inquiry that started with `'$'`,
with `inq` the reversed inquiry characters so far.  An inquiry ends at a
space (which is consumed) or at end of input; in both cases the
substitution is pushed followed by one space
("to simulate the missing space after the inquiry"). -/
def execLoop (ctx : ExecutionContext) :
    List Char → Option (List Char) → String → Except CommandError String
  | [], none, acc => .ok acc
  | [], some inq, acc =>
    match makeInquiry (String.mk inq.reverse) ctx with
    | .error e => .error (.InquiryError e)
    | .ok r => .ok (acc ++ r.getD "" ++ " ")
  | c :: rest, none, acc =>
    if c = '$' then execLoop ctx rest (some []) acc
    else execLoop ctx rest none (acc.push c)
  | c :: rest, some inq, acc =>
    if c = ' ' then
      match makeInquiry (String.mk inq.reverse) ctx with
      | .error e => .error (.InquiryError e)
      | .ok r => execLoop ctx rest none (acc ++ r.getD "" ++ " ")
    else execLoop ctx rest (some (c :: inq)) acc

/-- `CommandHandler::execute_command_action`
(`src/command_handler.rs:122-162`): scan the action, expand inquiries,
return `none` when the fully-expanded output is empty. -/
def executeCommandAction (ctx : ExecutionContext) (action : String) :
    Except CommandError (Option String) :=
  match execLoop ctx action.data none "" with
  | .error e => .error e
  | .ok response =>
    if response = "" then .ok none else .ok (some response)

/-! ## Entity store model (`src/database/mod.rs`)

Tables become association lists; the DashMap caches become assoc lists
where insertion conses to the front (lookup takes the first hit).  MySQL
transport errors are out of the model; the unique key on
`(channel_id, name)` (spec §3, matched as `UniqueViolation` by the `cmd`
builtin) is modelled explicitly. -/

/-- A row of the `users` table (`src/database/models.rs` is absent from
the snapshot; the identity columns are visible in `Database::get_user`,
`src/database/mod.rs:413-427`). -/
structure UserRow where
  id : Nat
  twitch_id : Option String
  discord_id : Option String
  telegram_id : Option String
  irc_name : Option String
  local_addr : Option String
  deriving DecidableEq, Repr

/-- A row of the `user_data` key/value table. -/
structure UserDataRow where
  user_id : Nat
  name : String
  value : String
  deriving DecidableEq, Repr

/-- A row of the `channels` table. -/
structure ChannelRow where
  id : Nat
  platform : String
  channel : String
  deriving DecidableEq, Repr

/-- A row of the `commands` table. -/
structure CommandRow where
  channel_id : Nat
  name : String
  action : String
  permissions : Option String
  cooldown : Nat
  deriving DecidableEq, Repr

/-- `NewCommand` (the insertable command record built by
`add_command_to_channel`, `src/database/mod.rs:339-345`). -/
structure NewCommand where
  name : String
  action : String
  permissions : Option String
  channel_id : Nat
  cooldown : Nat
  deriving DecidableEq, Repr

/-- The `Database` struct's modelled state (`src/database/mod.rs:39-50`):
backing tables plus the in-memory caches. -/
structure Db where
  usersTable : List UserRow
  userDataTable : List UserDataRow
  channelsTable : List ChannelRow
  commandsTable : List CommandRow
  nextChannelId : Nat
  usersCache : List (Nat × UserRow)
  userIdentifiersCache : List (UserIdentifier × Nat)
  deriving DecidableEq, Repr

/-- `BUILTIN_COMMANDS` (`src/database/mod.rs:34-37`) — the hardcoded
reserved-name list checked at command creation. -/
def BUILTIN_COMMANDS : List String :=
  ["ping", "commands", "cmd", "command", "addcmd", "debug", "delcmd", "merge",
   "showcmd", "checkcmd"]

/-- The command names the dispatcher's `match` in `run_command` recognizes
as builtins (`src/command_handler.rs:82-114`). -/
def dispatcherBuiltinNames : List String :=
  ["ping", "whoami", "id", "cmd", "command", "commands", "addcmd", "cmdadd",
   "delcmd", "cmddel"]

/-- `Database::add_command` (`src/database/mod.rs:348-361`): reject names
on the `BUILTIN_COMMANDS` list with `InvalidValue`, otherwise insert; the
`(channel_id, name)` unique key makes a duplicate insert fail with a
`UniqueViolation` and change nothing. -/
def addCommand (db : Db) (command : NewCommand) : Except DatabaseError Unit × Db :=
  if BUILTIN_COMMANDS.contains command.name then
    (.error .InvalidValue, db)
  else if db.commandsTable.any
      (fun r => r.channel_id == command.channel_id && r.name == command.name) then
    (.error (.DieselError .UniqueViolation), db)
  else
    (.ok (), { db with commandsTable := db.commandsTable ++
      [⟨command.channel_id, command.name, command.action, command.permissions,
        command.cooldown⟩] })

/-- `Database::get_or_create_channel` (`src/database/mod.rs:218-261`):
`none` when the identifier has no platform name; otherwise find the
`(platform, channel)` row or insert a fresh one (the redis
channel-list `sadd`/publish is external and out of the model). -/
def getOrCreateChannel (db : Db) (ci : ChannelIdentifier) : Option ChannelRow × Db :=
  match ci.getPlatformName with
  | none => (none, db)
  | some platform =>
    let channelName := ci.getChannel.getD ""
    match db.channelsTable.find?
        (fun c => c.platform == platform && c.channel == channelName) with
    | some c => (some c, db)
    | none =>
      let newChannel : ChannelRow := ⟨db.nextChannelId, platform, channelName⟩
      (some newChannel,
       { db with channelsTable := db.channelsTable ++ [newChannel],
                 nextChannelId := db.nextChannelId + 1 })

/-- `Database::add_command_to_channel` (`src/database/mod.rs:327-346`):
resolve-or-create the channel (`.unwrap()`, whose panic on a
platform-less identifier is the outer `none`), then insert with the
default cooldown of 5. -/
def addCommandToChannel (db : Db) (ci : ChannelIdentifier) (trigger action : String) :
    Option (Except DatabaseError Unit × Db) :=
  match getOrCreateChannel db ci with
  | (none, _) => none
  | (some c, db') =>
    some (addCommand db' { name := trigger, action := action, permissions := none,
                           channel_id := c.id, cooldown := 5 })

/-- `Database::delete_command` (`src/database/mod.rs:386-400`): delete by
`(channel_id, name)`; zero affected rows is an `InvalidValue` error. -/
def deleteCommand (db : Db) (channelId : Nat) (commandName : String) :
    Except DatabaseError Unit × Db :=
  let remaining := db.commandsTable.filter
    (fun r => !(r.channel_id == channelId && r.name == commandName))
  if remaining.length = db.commandsTable.length then
    (.error .InvalidValue, db)
  else
    (.ok (), { db with commandsTable := remaining })

/-- `Database::delete_command_from_channel` (`src/database/mod.rs:373-384`). -/
def deleteCommandFromChannel (db : Db) (ci : ChannelIdentifier) (commandName : String) :
    Option (Except DatabaseError Unit × Db) :=
  match getOrCreateChannel db ci with
  | (none, _) => none
  | (some c, db') => some (deleteCommand db' c.id commandName)

/-- `Database::get_command` (`src/database/mod.rs:292-317`): first command
row whose `channel_id` is among the channel rows matching the
identifier's `(platform, channel)` pair and whose name matches exactly.
For the modelled identifier variants a present channel string implies a
present platform name, so the source's `.unwrap()` cannot fire. -/
def getCommand (db : Db) (ci : ChannelIdentifier) (command : String) : Option CommandRow :=
  match ci.getChannel with
  | some channelName =>
    let channelIds := (db.channelsTable.filter (fun c =>
      c.platform == (ci.getPlatformName.getD "") && c.channel == channelName)).map (·.id)
    db.commandsTable.find? (fun r => channelIds.contains r.channel_id && r.name == command)
  | none => none

/-- The per-variant `users` table filter of `Database::get_user`
(`src/database/mod.rs:413-427`). -/
def identifierMatches (uid : UserIdentifier) (u : UserRow) : Bool :=
  match uid with
  | .TwitchID s => u.twitch_id == some s
  | .DiscordID s => u.discord_id == some s
  | .TelegramId n => u.telegram_id == some (toString n)
  | .IrcName s => u.irc_name == some s
  | .IpAddr s => u.local_addr == some s

/-- The store's own lookup of a user row by identifier (the SQL query of
`get_user`'s cache-miss path, without the cache write-back). -/
def queryUsersTable (table : List UserRow) (uid : UserIdentifier) : Option UserRow :=
  table.find? (identifierMatches uid)

/-- `Database::get_user_by_id` (`src/database/mod.rs:439-460`): users
cache first, then the table, caching on a hit. -/
def getUserById (db : Db) (userId : Nat) : Option UserRow × Db :=
  match (db.usersCache.find? (fun e => e.1 == userId)).map (·.2) with
  | some u => (some u, db)
  | none =>
    match db.usersTable.find? (fun r => r.id == userId) with
    | some u => (some u, { db with usersCache := (userId, u) :: db.usersCache })
    | none => (none, db)

/-- `Database::get_user` (`src/database/mod.rs:402-437`): identifier→id
cache first (then by-id lookup), else the table query, caching the
identifier→id mapping on a hit. -/
def getUser (db : Db) (uid : UserIdentifier) : Option UserRow × Db :=
  match (db.userIdentifiersCache.find? (fun e => e.1 == uid)).map (·.2) with
  | some userId => getUserById db userId
  | none =>
    match queryUsersTable db.usersTable uid with
    | some u =>
      (some u, { db with userIdentifiersCache := (uid, u.id) :: db.userIdentifiersCache })
    | none => (none, db)

/-- The `REPLACE INTO user_data … SELECT ?, name, value FROM user_data
WHERE user_id = ?` statement of `merge_users`
(`src/database/mod.rs:509`): copy the loser's key/value rows to the
winner, replacing on the `(user_id, name)` primary key. -/
def replaceIntoUserData (table : List UserDataRow) (keepId dropId : Nat) :
    List UserDataRow :=
  let dropRows := table.filter (fun r => r.user_id == dropId)
  let kept := table.filter
    (fun r => !(r.user_id == keepId && dropRows.any (fun d => d.name == r.name)))
  kept ++ dropRows.map (fun r => { r with user_id := keepId })

/-- Modelled from the spec: `User::merge` lives in the absent
`src/database/models.rs`.  Per §3 the merged record unites the two users'
platform identifiers, the winner's own value taking precedence. -/
def UserRow.merge (u o : UserRow) : UserRow :=
  { id := u.id
    twitch_id := u.twitch_id <|> o.twitch_id
    discord_id := u.discord_id <|> o.discord_id
    telegram_id := u.telegram_id <|> o.telegram_id
    irc_name := u.irc_name <|> o.irc_name
    local_addr := u.local_addr <|> o.local_addr }

/-- `Database::merge_users` (`src/database/mod.rs:504-527`), step by step:
evict the loser from the users cache, reparent its key/value rows, delete
its `users` row, merge the records, write the merged row back, evict the
winner from the users cache, clear the whole identifier→id cache. -/
def mergeUsers (db : Db) (user other : UserRow) : UserRow × Db :=
  let db1 := { db with usersCache := db.usersCache.filter (fun e => !(e.1 == other.id)) }
  let db2 := { db1 with userDataTable := replaceIntoUserData db1.userDataTable user.id other.id }
  let db3 := { db2 with usersTable := db2.usersTable.filter (fun r => !(r.id == other.id)) }
  let merged := user.merge other
  let updated := db3.usersTable.map (fun r => if r.id = merged.id then merged else r)
  let db4 := { db3 with usersTable := updated }
  let db5 := { db4 with usersCache := db4.usersCache.filter (fun e => !(e.1 == user.id)) }
  let db6 := { db5 with userIdentifiersCache := [] }
  (merged, db6)

/-! ## Dispatcher (`src/command_handler.rs:43-272`) -/

/-- The uptime formatting of `CommandHandler::ping`
(`src/command_handler.rs:183-208`); the elapsed time since startup
(`Instant`) enters the model as its whole-second count. -/
def pingReply (elapsedSecs : Nat) : String :=
  let minutes := (elapsedSecs / 60) % 60
  let hours := (elapsedSecs / 60) / 60
  let r := (if hours ≠ 0 then toString hours ++ "h " else "")
        ++ (if minutes ≠ 0 then toString minutes ++ "m " else "")
  let uptime := if r = "" then toString elapsedSecs ++ "s" else r
  "Pong! Uptime " ++ uptime

/-- Rust derived `Debug` rendering of an `Option<String>` column. -/
def debugOptionString : Option String → String
  | none => "None"
  | some s => "Some(" ++ rustDebugStr s ++ ")"

/-- Rust derived `Debug` rendering of a `User` row. -/
def debugUserRow (u : UserRow) : String :=
  "User \x7b id: " ++ toString u.id
    ++ ", twitch_id: " ++ debugOptionString u.twitch_id
    ++ ", discord_id: " ++ debugOptionString u.discord_id
    ++ ", telegram_id: " ++ debugOptionString u.telegram_id
    ++ ", irc_name: " ++ debugOptionString u.irc_name
    ++ ", local_addr: " ++ debugOptionString u.local_addr ++ " \x7d"

/-- Rust `Debug` rendering of the modelled `Permissions`. -/
def debugPermissions : Permissions → String
  | .ChannelMod => "ChannelMod"
  | .Default => "Default"

/-- The `whoami`/`id` reply
(`format!("{:?}, permissions: {:?}", self.db.get_user(..), ..)`,
`src/command_handler.rs:84-88`). -/
def formatWhoami (u : Option UserRow) (p : Permissions) : String :=
  "Ok(" ++ (match u with
            | none => "None"
            | some user => "Some(" ++ debugUserRow user ++ ")")
    ++ "), permissions: " ++ debugPermissions p

/-- `CommandHandler::cmd` (`src/command_handler.rs:210-272`): the
`command`/`cmd`/`commands` builtin.  Zero arguments short-circuit to the
command list before any permission check; otherwise `ChannelMod` is
required, then `add|create` / `del|delete|remove` subcommands run against
the store.  The outer `none` models the `.unwrap()` panic inside the
store helpers. -/
def cmd (db : Db) (command : String) (arguments : List String)
    (ctx : ExecutionContext) : Option (Except CommandError (Option String) × Db) :=
  if arguments.length = 0 then
    some (.ok (some "Command list"), db)
  else
    match ctx.permissions with
    | .ChannelMod =>
      match arguments with
      | [] => some (.error (.MissingArgument "must be either add or delete"), db)
      | sub :: rest =>
        if sub = "add" ∨ sub = "create" then
          match rest with
          | [] => some (.error (.MissingArgument "command name"), db)
          | commandName :: actionParts =>
            let commandAction := joinSpace actionParts
            if commandAction = "" then
              some (.error (.MissingArgument "command action"), db)
            else
              match addCommandToChannel db ctx.channel commandName commandAction with
              | none => none
              | some (.ok _, db') =>
                some (.ok (some "Command successfully added"), db')
              | some (.error (.DieselError .UniqueViolation), db') =>
                some (.ok (some "Command already exists"), db')
              | some (.error e, db') => some (.error (.DatabaseError e), db')
        else if sub = "del" ∨ sub = "delete" ∨ sub = "remove" then
          match rest with
          | [] => some (.error (.MissingArgument "command name"), db)
          | commandName :: _ =>
            match deleteCommandFromChannel db ctx.channel commandName with
            | none => none
            | some (.ok _, db') =>
              some (.ok (some "Command succesfully removed"), db')
            | some (.error e, db') => some (.error (.DatabaseError e), db')
        else
          some (.error (.InvalidArgument command), db)
    | .Default => some (.error .NoPermissions, db)

/-- `CommandHandler::run_command` (`src/command_handler.rs:73-120`): the
builtin `match`, the legacy-alias rewrites (`addcmd`/`cmdadd` →
`command add …`, `delcmd`/`cmddel` → `command remove …`), and the
stored-command fallthrough. -/
def runCommand (db : Db) (elapsedSecs : Nat) (command : String)
    (arguments : List String) (userIdentifier : UserIdentifier)
    (ctx : ExecutionContext) : Option (Except CommandError (Option String) × Db) :=
  if command = "ping" then
    some (.ok (some (pingReply elapsedSecs)), db)
  else if command = "whoami" ∨ command = "id" then
    let (u, db') := getUser db userIdentifier
    some (.ok (some (formatWhoami u ctx.permissions)), db')
  else if command = "cmd" ∨ command = "command" ∨ command = "commands" then
    cmd db command arguments ctx
  else if command = "addcmd" ∨ command = "cmdadd" then
    cmd db "command" ("add" :: arguments) ctx
  else if command = "delcmd" ∨ command = "cmddel" then
    cmd db "command" ("remove" :: arguments) ctx
  else
    match getCommand db ctx.channel command with
    | some storedCmd =>
      match executeCommandAction ctx storedCmd.action with
      | .ok r => some (.ok r, db)
      | .error e => some (.error e, db)
    | none => some (.ok none, db)

/-- `CommandHandler::handle_command_message`
(`src/command_handler.rs:43-70`): empty text short-circuits to the fixed
`"❗"` reply; otherwise the first whitespace token is the command name and
the rest are arguments, with errors rendered as a single
`"Error: …"` reply.  The outer `none` models the `.unwrap()` panic on
whitespace-only input (and panics further down). -/
def handleCommandMessage (db : Db) (elapsedSecs : Nat) (text : String)
    (userIdentifier : UserIdentifier) (ctx : ExecutionContext) :
    Option (Option String × Db) :=
  if text = "" then
    some (some "❗", db)
  else
    match splitWhitespace text with
    | [] => none
    | command :: arguments =>
      match runCommand db elapsedSecs command arguments userIdentifier ctx with
      | none => none
      | some (.ok result, db') => some (result, db')
      | some (.error e, db') => some (some ("Error: " ++ e.display), db')

/-! ## Message filter (`src/command_handler/platform_handler.rs:51-80`)

The regex engine (the external `regex` crate) enters as a parameter: a
compiler from pattern strings (failing with the error's display text),
a matcher and a global replacer.  The pipeline's control flow is the
source's, verbatim. -/

/-- A `filters` table row as used by `filter_message`
(`src/database/models.rs` is absent; fields visible at
`platform_handler.rs:57-71`). -/
structure MessageFilter where
  regex : String
  block_message : Bool
  replacement : Option String
  deriving DecidableEq, Repr

/-- The external regex engine interface used by `filter_message`:
`Regex::new`, `Regex::is_match`, `Regex::replace_all`. -/
structure RegexEngine (R : Type) where
  compile : String → Except String R
  isMatch : R → String → Bool
  replaceAll : R → String → String → String

/-- The filter loop of `PlatformHandler::filter_message`
(`platform_handler.rs:56-78`): in stored order, a blocking filter whose
regex matches clears the message and stops; a non-blocking filter
replaces every match with its replacement (default `"[Blocked]"`); a
pattern that fails to compile overwrites the message with a diagnostic
and the loop continues. -/
def applyFilters {R : Type} (E : RegexEngine R) : List MessageFilter → String → String
  | [], msg => msg
  | f :: rest, msg =>
    match E.compile f.regex with
    | .ok re =>
      if f.block_message then
        if E.isMatch re msg then "" else applyFilters E rest msg
      else
        applyFilters E rest (E.replaceAll re msg (f.replacement.getD "[Blocked]"))
    | .error e =>
      applyFilters E rest ("failed to compile message filter regex: " ++ e)

/-- `PlatformHandler::filter_message` (`platform_handler.rs:51-80`): look
up the channel's filter list (absent channel: message unchanged) and run
the loop. -/
def filterMessage {R : Type} (E : RegexEngine R)
    (filters : List (ChannelIdentifier × List MessageFilter)) (msg : String)
    (channel : ChannelIdentifier) : String :=
  match (filters.find? (fun e => e.1 == channel)).map (·.2) with
  | some fs => applyFilters E fs msg
  | none => msg

/-- A concrete literal-substring-free toy instance of the engine
interface (exact-text matching), used to evaluate the filter pipeline on
closed inputs. -/
def exactEngine : RegexEngine String :=
  { compile := fun p =>
      if p = "(" then .error "regex parse error:\n    (\n    ^\nerror: unclosed group" else .ok p
    isMatch := fun p s => p == s
    replaceAll := fun p s r => if p == s then r else s }

/-! ## Cooldown gate

No cooldown check exists under `src/`: `run_command`
(`src/command_handler.rs:115-118`) executes a stored command
unconditionally, and of the rate-limit gate only the
`ExecutableCommand::get_cooldown` declaration survives in
`src/command_handler/commands/ping.rs:17-19`.  The gate is therefore
modelled from the spec (§4.2, §5). -/

/-- Modelled from the spec: the per-(channel, command) last-invoked
timestamp table of §4.2 (`Cooldown is tracked per (channel, command) …
with a last-invoked timestamp`). -/
structure CooldownTracker where
  lastInvoked : List ((ChannelIdentifier × String) × Nat)
  deriving DecidableEq, Repr

/-- Look up the last-invoked timestamp for a scope. -/
def CooldownTracker.lastOf (t : CooldownTracker)
    (key : ChannelIdentifier × String) : Option Nat :=
  (t.lastInvoked.find? (fun e => e.1 == key)).map (·.2)

/-- Record an invocation timestamp for a scope. -/
def CooldownTracker.record (t : CooldownTracker)
    (key : ChannelIdentifier × String) (now : Nat) : CooldownTracker :=
  ⟨(key, now) :: t.lastInvoked.filter (fun e => !(e.1 == key))⟩

/-- Modelled from the spec: an invocation is inside the cooldown window
when a last-invoked timestamp exists and `now` is still within
`cooldown` of it. -/
def cooldownBlocked (t : CooldownTracker) (key : ChannelIdentifier × String)
    (cooldown now : Nat) : Bool :=
  match t.lastOf key with
  | some last => decide (now < last + cooldown)
  | none => false

/-- Modelled from the spec: stored-command invocation through the
rate-limit gate of §4.2 — a blocked invocation is silently dropped
(`Ok(None)`, never an error); an allowed one runs the action interpreter
and records its timestamp. -/
def invokeStoredCommand (db : Db) (t : CooldownTracker) (ctx : ExecutionContext)
    (name : String) (now : Nat) : Except CommandError (Option String) × CooldownTracker :=
  match getCommand db ctx.channel name with
  | none => (.ok none, t)
  | some c =>
    let key := (ctx.channel, name)
    if cooldownBlocked t key c.cooldown now then
      (.ok none, t)
    else
      match executeCommandAction ctx c.action with
      | .ok r => (.ok r, t.record key now)
      | .error e => (.error e, t)

/-! ## Decidability and concrete sample values -/

instance {ε α : Type} [DecidableEq ε] [DecidableEq α] : DecidableEq (Except ε α) :=
  fun x y =>
  match x, y with
  | .ok a, .ok b =>
    if h : a = b then isTrue (by rw [h]) else isFalse (fun hc => h (Except.ok.inj hc))
  | .error a, .error b =>
    if h : a = b then isTrue (by rw [h]) else isFalse (fun hc => h (Except.error.inj hc))
  | .ok _, .error _ => isFalse (fun hc => Except.noConfusion hc)
  | .error _, .ok _ => isFalse (fun hc => Except.noConfusion hc)

/-- A default-permission execution context on a twitch channel. -/
def sampleCtx : ExecutionContext := ⟨.TwitchChannelName "chan", .Default⟩

/-- A moderator-permission execution context on the same channel. -/
def sampleModCtx : ExecutionContext := ⟨.TwitchChannelName "chan", .ChannelMod⟩

/-- A sample caller identity. -/
def sampleUid : UserIdentifier := .IrcName "alice"

/-- A store with one channel owning one stored command `greet`. -/
def sampleDb : Db :=
  ⟨[], [], [⟨1, "twitch", "chan"⟩], [⟨1, "greet", "hello", none, 5⟩], 2, [], []⟩

/-- The surviving user of the sample merge. -/
def userKeep : UserRow := ⟨1, some "t1", none, none, none, none⟩

/-- The merged-away user of the sample merge, with one key/value row. -/
def userDrop : UserRow := ⟨2, none, none, none, some "bob", none⟩

/-- A store with two users, one key/value row and warm caches. -/
def sampleUserDb : Db :=
  ⟨[userKeep, userDrop], [⟨2, "lastfm_name", "bobfm"⟩], [], [], 1,
   [(2, userDrop)], [(.IrcName "bob", 2)]⟩

/-! ## Helper lemmas -/

/-- Splitting on `':'` always yields at least one segment. -/
theorem splitColonAux_ne_nil (l : List Char) (cur : List Char) :
    splitColonAux l cur ≠ [] := by
  induction l generalizing cur with
  | nil => simp [splitColonAux]
  | cons c rest ih =>
    rw [splitColonAux]
    by_cases h : c = ':'
    · simp [h]
    · simpa [h] using ih (c :: cur)

/-- Recording an invocation makes it the scope's last-invoked timestamp. -/
theorem CooldownTracker.lastOf_record (t : CooldownTracker)
    (key : ChannelIdentifier × String) (now : Nat) :
    (t.record key now).lastOf key = some now := by
  simp [CooldownTracker.record, CooldownTracker.lastOf, List.find?]

/-- Every key/value row of the merged-away user is copied to the
survivor by the `REPLACE INTO` statement. -/
theorem mem_replaceIntoUserData (table : List UserDataRow) (keepId dropId : Nat)
    (r : UserDataRow) (hr : r ∈ table) (hid : r.user_id = dropId) :
    ({ r with user_id := keepId } : UserDataRow) ∈
      replaceIntoUserData table keepId dropId := by
  unfold replaceIntoUserData
  refine List.mem_append_right _ ?_
  exact List.mem_map.mpr ⟨r, List.mem_filter.mpr ⟨hr, by simp [hid]⟩, rfl⟩

/-! ## Claim theorems -/

/-- **C1 (counterexample).** On the claim's own input the interpreter
produces one space before `world`, not two: the template's separator
space is consumed by the inquiry scan and replaced by the single
appended space, so the claimed two-space output is not returned. -/
theorem interpret_hello_two_spaces_refuted :
    executeCommandAction sampleCtx "Hello $DO_SOMETHING:a:b world" =
      .ok (some "Hello did something with [\"a\", \"b\"] world") ∧
    executeCommandAction sampleCtx "Hello $DO_SOMETHING:a:b world" ≠
      .ok (some "Hello did something with [\"a\", \"b\"]  world") := by
  exact ⟨rfl, by decide⟩

/-- **C1 (amended).** For any execution context the interpreter returns
`Some "Hello did something with [\"a\", \"b\"] world"` — with a single
space before `world`, the one appended after the inquiry substitution in
place of the consumed separator — byte for byte, with no trailing-space
stripping. -/
theorem interpret_hello_exact (ctx : ExecutionContext) :
    executeCommandAction ctx "Hello $DO_SOMETHING:a:b world" =
      .ok (some "Hello did something with [\"a\", \"b\"] world") := rfl

/-- **C4 (counterexample).** An inquiry with an empty name (`""` or
`":a:b"`) does not produce `InquiryError::MissingArgument`: `make_inquiry`
returns `Ok(None)`, treating the empty name like any unrecognized one. -/
theorem make_inquiry_empty_name_no_error :
    makeInquiry "" sampleCtx = .ok none ∧
    makeInquiry ":a:b" sampleCtx = .ok none ∧
    makeInquiry "" sampleCtx ≠ .error (.MissingArgument "inquiry") := by
  exact ⟨rfl, rfl, by decide⟩

/-- **C4 (amended).** For every inquiry whose name segment is empty,
`make_inquiry` returns `Ok(None)` — an empty substitution, like any
unrecognized name — and `make_inquiry` can never return an error at all:
splitting on `':'` always yields a first (possibly empty) segment, so the
`MissingArgument` branch is unreachable and no `"Error: …"` reply or
crash arises from a malformed inquiry. -/
theorem make_inquiry_empty_name_ok (ctx : ExecutionContext) (s : String)
    (h : (splitColon s).head? = some "") :
    makeInquiry s ctx = .ok none ∧
    ∀ s' e, makeInquiry s' ctx ≠ .error e := by
  constructor
  · unfold makeInquiry
    cases hs : splitColon s with
    | nil => exact absurd hs (splitColonAux_ne_nil _ _)
    | cons name args =>
      rw [hs] at h
      simp only [List.head?_cons, Option.some.injEq] at h
      subst h
      simp
  · intro s' e
    unfold makeInquiry
    cases hs : splitColon s' with
    | nil => exact absurd hs (splitColonAux_ne_nil _ _)
    | cons name args =>
      by_cases hn : name = "DO_SOMETHING" <;> simp [hn]

/-- **C4 (witness).** -/
theorem make_inquiry_empty_name_ok_witness :
    makeInquiry ":a:b" sampleCtx = .ok none := by
  exact (make_inquiry_empty_name_ok sampleCtx ":a:b" rfl).1

/-- **C2 (counterexample).** `"whoami"` is a command name the dispatcher
recognizes as a builtin, yet `add_command` accepts it: the hardcoded
`BUILTIN_COMMANDS` list omits `whoami`/`id`/`cmdadd`/`cmddel`, so
creation succeeds and a command row is inserted. -/
theorem add_command_whoami_accepted :
    "whoami" ∈ dispatcherBuiltinNames ∧
    "whoami" ∉ BUILTIN_COMMANDS ∧
    addCommand sampleDb ⟨"whoami", "x", none, 1, 5⟩ =
      (.ok (), { sampleDb with commandsTable :=
        sampleDb.commandsTable ++ [⟨1, "whoami", "x", none, 5⟩] }) := by
  refine ⟨by decide, by decide, by decide⟩

/-- **C2 (amended).** Creation is rejected with `InvalidValue` (and no
row inserted) exactly for names on the hardcoded `BUILTIN_COMMANDS` list
(`ping`, `commands`, `cmd`, `command`, `addcmd`, `debug`, `delcmd`,
`merge`, `showcmd`, `checkcmd`); dispatcher-recognized names outside that
list (`whoami`, `id`, `cmdadd`, `cmddel`) are not rejected. -/
theorem add_command_rejects_builtin_list (db : Db) (c : NewCommand)
    (h : c.name ∈ BUILTIN_COMMANDS) :
    addCommand db c = (.error .InvalidValue, db) := by
  simp [addCommand, h]

/-- **C2 (witness).** -/
theorem add_command_rejects_builtin_list_witness :
    ("ping" : String) ∈ BUILTIN_COMMANDS ∧
    addCommand sampleDb ⟨"ping", "x", none, 1, 5⟩ = (.error .InvalidValue, sampleDb) := by
  exact ⟨by decide, add_command_rejects_builtin_list sampleDb ⟨"ping", "x", none, 1, 5⟩ (by decide)⟩

/-- **C5.** A caller whose permission level is `Default` invoking
`command add …` (directly or through the `addcmd`/`cmdadd` aliases) gets
the `NoPermissions` error and the store is returned unchanged: no command
is created. -/
theorem command_add_needs_channel_mod (db : Db) (es : Nat) (rest : List String)
    (uid : UserIdentifier) (ctx : ExecutionContext)
    (h : ctx.permissions = .Default) :
    runCommand db es "command" ("add" :: rest) uid ctx =
      some (.error .NoPermissions, db) ∧
    runCommand db es "addcmd" rest uid ctx = some (.error .NoPermissions, db) ∧
    runCommand db es "cmdadd" rest uid ctx = some (.error .NoPermissions, db) := by
  refine ⟨?_, ?_, ?_⟩ <;> simp [runCommand, cmd, h]

/-- **C5 (witness).** -/
theorem command_add_needs_channel_mod_witness :
    sampleCtx.permissions = .Default ∧
    runCommand sampleDb 0 "command" ["add", "foo", "bar"] sampleUid sampleCtx =
      some (.error .NoPermissions, sampleDb) := by
  exact ⟨rfl, (command_add_needs_channel_mod sampleDb 0 ["foo", "bar"] sampleUid
    sampleCtx rfl).1⟩

/-- **C10.** `command`/`cmd`/`commands` with zero arguments replies
`"Command list"` for every execution context — the permission check
sits behind the non-empty-arguments branch, so the empty form never
yields `NoPermissions`, even at `Default` level. -/
theorem command_no_args_bypasses_gate (db : Db) (es : Nat)
    (uid : UserIdentifier) (ctx : ExecutionContext) :
    runCommand db es "cmd" [] uid ctx = some (.ok (some "Command list"), db) ∧
    runCommand db es "command" [] uid ctx = some (.ok (some "Command list"), db) ∧
    runCommand db es "commands" [] uid ctx = some (.ok (some "Command list"), db) := by
  refine ⟨?_, ?_, ?_⟩ <;> simp [runCommand, cmd]

/-- **C8.** Empty inbound text yields the fixed `"❗"` reply for every
context and caller, without touching command resolution; non-empty text
whose first whitespace token is neither a dispatcher builtin nor a stored
command of the context's channel yields no reply at all (`None`), not an
error. -/
theorem dispatcher_empty_and_unknown (db : Db) (es : Nat)
    (uid : UserIdentifier) (ctx : ExecutionContext) (text c : String)
    (args : List String)
    (hsplit : splitWhitespace text = c :: args)
    (hb : c ∉ dispatcherBuiltinNames)
    (hstore : getCommand db ctx.channel c = none) :
    handleCommandMessage db es "" uid ctx = some (some "❗", db) ∧
    handleCommandMessage db es text uid ctx = some (none, db) := by
  constructor
  · simp [handleCommandMessage]
  · have htext : ¬(text = "") := by
      intro h
      rw [h] at hsplit
      simp [splitWhitespace, splitWhitespaceAux] at hsplit
    rw [handleCommandMessage, if_neg htext, hsplit]
    simp only [dispatcherBuiltinNames, List.mem_cons, List.mem_singleton,
      not_or] at hb
    obtain ⟨h1, h2, h3, h4, h5, h6, h7, h8, h9, h10⟩ := hb
    simp [runCommand, h1, h2, h3, h4, h5, h6, h7, h8, h9, h10, hstore]

/-- **C8 (witness).** -/
theorem dispatcher_empty_and_unknown_witness :
    splitWhitespace "hello there" = ["hello", "there"] ∧
    handleCommandMessage sampleDb 0 "" sampleUid sampleCtx =
      some (some "❗", sampleDb) ∧
    handleCommandMessage sampleDb 0 "hello there" sampleUid sampleCtx =
      some (none, sampleDb) := by
  have h := dispatcher_empty_and_unknown sampleDb 0 sampleUid sampleCtx
    "hello there" "hello" ["there"] rfl (by decide) rfl
  exact ⟨rfl, h.1, h.2⟩

/-- **C6.** The channel's filter list runs in stored order; with the
leading filter's regex compiled: a blocking filter that matches clears
the message and no later filter runs; a non-blocking filter with no
configured replacement replaces every match with the literal
`"[Blocked]"`; a non-blocking filter with a replacement replaces every
match with that replacement (each then continuing with the rest). -/
theorem filter_message_semantics {R : Type} (E : RegexEngine R)
    (f : MessageFilter) (rest : List MessageFilter) (msg : String) (re : R)
    (hc : E.compile f.regex = .ok re) :
    (f.block_message = true → E.isMatch re msg = true →
      applyFilters E (f :: rest) msg = "") ∧
    (f.block_message = false → f.replacement = none →
      applyFilters E (f :: rest) msg =
        applyFilters E rest (E.replaceAll re msg "[Blocked]")) ∧
    (∀ repl, f.block_message = false → f.replacement = some repl →
      applyFilters E (f :: rest) msg =
        applyFilters E rest (E.replaceAll re msg repl)) ∧
    (∀ channelFilters channel,
      (channelFilters.find?
        (fun e : ChannelIdentifier × List MessageFilter => e.1 == channel)).map
          (·.2) = some (f :: rest) →
      filterMessage E channelFilters msg channel = applyFilters E (f :: rest) msg) := by
  refine ⟨?_, ?_, ?_, ?_⟩
  · intro hblock hmatch
    simp [applyFilters, hc, hblock, hmatch]
  · intro hblock hrepl
    simp [applyFilters, hc, hblock, hrepl]
  · intro repl hblock hrepl
    simp [applyFilters, hc, hblock, hrepl]
  · intro channelFilters channel hlook
    rw [filterMessage, hlook]

/-- **C6 (witness).** Evaluated with the exact-text toy engine: a
blocking filter clears a matching message even with a later filter
pending, and a non-blocking filter without replacement yields the
placeholder. -/
theorem filter_message_semantics_witness :
    applyFilters exactEngine
      [⟨"bad", true, none⟩, ⟨"x", false, none⟩] "bad" = "" ∧
    applyFilters exactEngine [⟨"bad", false, none⟩] "bad" = "[Blocked]" ∧
    applyFilters exactEngine [⟨"bad", false, some "meow"⟩] "bad" = "meow" := by
  refine ⟨?_, ?_, ?_⟩
  · exact (filter_message_semantics exactEngine ⟨"bad", true, none⟩
      [⟨"x", false, none⟩] "bad" "bad" rfl).1 rfl rfl
  · rw [(filter_message_semantics exactEngine ⟨"bad", false, none⟩ [] "bad" "bad"
      rfl).2.1 rfl rfl]
    rfl
  · rw [((filter_message_semantics exactEngine ⟨"bad", false, some "meow"⟩ []
      "bad" "bad" rfl).2.2.1 "meow") rfl rfl]
    rfl

/-- **C7.** A filter whose pattern fails to compile neither aborts the
pipeline nor is silently skipped: the in-progress message is overwritten
with a diagnostic naming the compile failure, and the remaining filters
keep running on that diagnostic. -/
theorem filter_bad_regex_diagnostic {R : Type} (E : RegexEngine R)
    (f : MessageFilter) (rest : List MessageFilter) (msg e : String)
    (hc : E.compile f.regex = .error e) :
    applyFilters E (f :: rest) msg =
      applyFilters E rest ("failed to compile message filter regex: " ++ e) := by
  simp [applyFilters, hc]

/-- **C7 (witness).** The toy engine rejects the pattern `"("`; the
diagnostic replaces the message and the following blocking filter still
runs — here it matches the diagnostic itself and clears it. -/
theorem filter_bad_regex_diagnostic_witness :
    applyFilters exactEngine [⟨"(", true, none⟩] "hi" =
      "failed to compile message filter regex: regex parse error:\n    (\n    ^\nerror: unclosed group" ∧
    applyFilters exactEngine
      [⟨"(", true, none⟩,
       ⟨"failed to compile message filter regex: regex parse error:\n    (\n    ^\nerror: unclosed group", true, none⟩]
      "hi" = "" := by
  constructor
  · rw [filter_bad_regex_diagnostic exactEngine ⟨"(", true, none⟩ [] "hi" _ rfl]
    rfl
  · rw [filter_bad_regex_diagnostic exactEngine ⟨"(", true, none⟩ _ "hi" _ rfl]
    rfl

/-- With an empty identifier→id cache, a user lookup through the cache
layer returns exactly what the store's own table query returns. -/
theorem getUser_empty_idcache (db : Db) (hid : db.userIdentifiersCache = [])
    (uid : UserIdentifier) :
    (getUser db uid).1 = queryUsersTable db.usersTable uid := by
  rw [getUser, hid]
  cases hq : queryUsersTable db.usersTable uid <;> simp [List.find?, hq]

/-- **C3.** After a successful (replying) invocation of a stored command
at time `t1`, a second invocation inside the cooldown window is silently
dropped — `Ok(None)`, no reply and no error, state untouched — and an
invocation at or after `t1 + cooldown` replies again (recording the new
timestamp). -/
theorem cooldown_window_drop_then_allow (db : Db) (t : CooldownTracker)
    (ctx : ExecutionContext) (name : String) (c : CommandRow) (t1 : Nat)
    (r : String) (t' : CooldownTracker)
    (hcmd : getCommand db ctx.channel name = some c)
    (hfirst : invokeStoredCommand db t ctx name t1 = (.ok (some r), t')) :
    (∀ t2, t2 < t1 + c.cooldown →
      invokeStoredCommand db t' ctx name t2 = (.ok none, t')) ∧
    (∀ t3, t1 + c.cooldown ≤ t3 →
      invokeStoredCommand db t' ctx name t3 =
        (.ok (some r), t'.record (ctx.channel, name) t3)) := by
  simp only [invokeStoredCommand, hcmd] at hfirst
  by_cases hblock : cooldownBlocked t (ctx.channel, name) c.cooldown t1
  · rw [if_pos hblock] at hfirst
    simp at hfirst
  · rw [if_neg hblock] at hfirst
    cases hexec : executeCommandAction ctx c.action with
    | error e => rw [hexec] at hfirst; simp at hfirst
    | ok r0 =>
      rw [hexec] at hfirst
      rw [Prod.mk.injEq] at hfirst
      obtain ⟨hr0, ht'⟩ := hfirst
      rw [Except.ok.injEq] at hr0
      subst hr0
      subst ht'
      constructor
      · intro t2 h2
        have hb : cooldownBlocked (t.record (ctx.channel, name) t1)
            (ctx.channel, name) c.cooldown t2 = true := by
          simp [cooldownBlocked, CooldownTracker.lastOf_record, h2]
        simp only [invokeStoredCommand, hcmd]
        simp [hb]
      · intro t3 h3
        have hb : cooldownBlocked (t.record (ctx.channel, name) t1)
            (ctx.channel, name) c.cooldown t3 = false := by
          simp [cooldownBlocked, CooldownTracker.lastOf_record, Nat.not_lt.mpr h3]
        simp only [invokeStoredCommand, hcmd]
        simp [hb, hexec]

/-- **C3 (witness).** The `greet` command (cooldown 5) invoked at time
100 replies; at 102 it is silently dropped; at 105 it replies again. -/
theorem cooldown_window_drop_then_allow_witness :
    invokeStoredCommand sampleDb ⟨[]⟩ sampleCtx "greet" 100 =
      (.ok (some "hello"), ⟨[((sampleCtx.channel, "greet"), 100)]⟩) ∧
    invokeStoredCommand sampleDb ⟨[((sampleCtx.channel, "greet"), 100)]⟩
      sampleCtx "greet" 102 =
      (.ok none, ⟨[((sampleCtx.channel, "greet"), 100)]⟩) ∧
    invokeStoredCommand sampleDb ⟨[((sampleCtx.channel, "greet"), 100)]⟩
      sampleCtx "greet" 105 =
      (.ok (some "hello"),
       (⟨[((sampleCtx.channel, "greet"), 100)]⟩ : CooldownTracker).record
         (sampleCtx.channel, "greet") 105) := by
  have h := cooldown_window_drop_then_allow sampleDb ⟨[]⟩ sampleCtx "greet"
    ⟨1, "greet", "hello", none, 5⟩ 100 "hello"
    ⟨[((sampleCtx.channel, "greet"), 100)]⟩ rfl rfl
  exact ⟨rfl, h.1 102 (by decide), h.2 105 (by decide)⟩

/-- **C9.** `merge_users` reparents the dropped user's key/value rows to
the kept user, deletes the dropped user's row, evicts both ids from the
users cache, and clears the whole identifier→id cache — so afterwards a
lookup of any identifier (in particular any of the dropped user's)
through the caching layer returns exactly what the store's own table
query returns: the cache cannot diverge from the store post-merge. -/
theorem merge_users_cache_consistent (db : Db) (user other : UserRow)
    (merged : UserRow) (db' : Db)
    (h : mergeUsers db user other = (merged, db')) :
    (∀ r ∈ db.userDataTable, r.user_id = other.id →
      ({ r with user_id := user.id } : UserDataRow) ∈ db'.userDataTable) ∧
    (∀ r ∈ db'.usersTable, r.id ≠ other.id) ∧
    db'.usersCache.find?
      (fun e : Nat × UserRow => e.1 == other.id) = none ∧
    db'.usersCache.find?
      (fun e : Nat × UserRow => e.1 == user.id) = none ∧
    db'.userIdentifiersCache = [] ∧
    (∀ uid, (getUser db' uid).1 = queryUsersTable db'.usersTable uid) := by
  simp only [mergeUsers] at h
  rw [Prod.mk.injEq] at h
  obtain ⟨hm, hdb⟩ := h
  subst hdb
  refine ⟨?_, ?_, ?_, ?_, rfl, ?_⟩
  · intro r hr hid
    exact mem_replaceIntoUserData _ _ _ r hr hid
  · intro r hr
    simp only [List.mem_map] at hr
    obtain ⟨r0, hr0, hfr⟩ := hr
    have h0 : r0.id ≠ other.id := by
      have := (List.mem_filter.mp hr0).2
      simpa using this
    by_cases hid : r0.id = (user.merge other).id
    · rw [if_pos hid] at hfr
      rw [← hfr, ← hid]
      exact h0
    · rw [if_neg hid] at hfr
      rw [← hfr]
      exact h0
  · rw [List.find?_eq_none]
    intro x hx
    have := (List.mem_filter.mp (List.mem_filter.mp hx).1).2
    simpa using this
  · rw [List.find?_eq_none]
    intro x hx
    have := (List.mem_filter.mp hx).2
    simpa using this
  · intro uid
    exact getUser_empty_idcache _ rfl uid

/-- **C9 (witness).** The sample merge of `userKeep` (id 1) and
`userDrop` (id 2, identifier `IrcName "bob"`, one key/value row, warm
caches): the data row is reparented, the identifier cache is cleared, and
the post-merge cached lookup of `IrcName "bob"` agrees with the store's
own query. -/
theorem merge_users_cache_consistent_witness :
    ({ user_id := 1, name := "lastfm_name", value := "bobfm" } : UserDataRow) ∈
      (mergeUsers sampleUserDb userKeep userDrop).2.userDataTable ∧
    (mergeUsers sampleUserDb userKeep userDrop).2.userIdentifiersCache = [] ∧
    (getUser (mergeUsers sampleUserDb userKeep userDrop).2 (.IrcName "bob")).1 =
      queryUsersTable (mergeUsers sampleUserDb userKeep userDrop).2.usersTable
        (.IrcName "bob") := by
  have h := merge_users_cache_consistent sampleUserDb userKeep userDrop
    (mergeUsers sampleUserDb userKeep userDrop).1
    (mergeUsers sampleUserDb userKeep userDrop).2 rfl
  exact ⟨h.1 ⟨2, "lastfm_name", "bobfm"⟩ (by decide) rfl,
    h.2.2.2.2.1, h.2.2.2.2.2 (.IrcName "bob")⟩
